import Mathlib

/-!
Shallow embedding of the automated answer-grading engine of
`src/assessment/services/grading_service.py` (classes `MockGradingService`,
`LLMGradingService` and the factory `get_grading_service`).

Modelling conventions:
* Python `float` / `Decimal` arithmetic is modelled with exact rationals `ℚ`.
* Python strings are Lean `String`s; `str.lower` / `str.upper` / `str.strip`
  / `str.split` are modelled at the ASCII level by structurally recursive
  functions over the character list (`lowerStr`, `upperStr`, `trimStr`,
  `words`), which is faithful for the ASCII texts the grading rules are
  stated over and keeps every definition kernel-evaluable.
* The external sklearn TF-IDF + cosine-similarity pipeline is not code of this
  repository; it is modelled as an abstract `Vectorizer` whose `cosineTfidf`
  returns `none` exactly when `fit_transform`/`cosine_similarity` would raise
  (the `except Exception` branch of `_calculate_similarity`).  The engine is
  re-fit per call from just the two texts, so its observable behaviour is a
  pure function of those two texts.
* `Question` keeps exactly the fields the grading engine reads
  (`question_type`, `question_text`, `marks`, `expected_answer`, and
  `grading_criteria` which the code consumes only through
  `grading_criteria.get("keywords", [])`, modelled as the list
  `keywords_criteria`).  The persistence-only fields (`exam`, `order`,
  `options`, `metadata`, timestamps) are never read by the grader and are
  omitted.  Per the data model (`DecimalField(max_digits=5, decimal_places=2,
  validators=[MinValueValidator(0)])`), `marks` is a non-negative multiple of
  `1/100`; theorems that need this take it as a hypothesis.
-/

namespace Grading

/-! ### String primitives (models of the Python string operations used) -/

/-- Model of Python `str.lower()` (ASCII). -/
def lowerStr (s : String) : String := String.mk (s.toList.map Char.toLower)

/-- Model of Python `str.upper()` (ASCII). -/
def upperStr (s : String) : String := String.mk (s.toList.map Char.toUpper)

/-- Model of Python `str.strip()`: remove leading and trailing whitespace. -/
def trimStr (s : String) : String :=
  String.mk
    (((s.toList.dropWhile Char.isWhitespace).reverse.dropWhile
        Char.isWhitespace).reverse)

/-- Accumulating splitter behind `words` (the accumulator holds the current
run of non-whitespace characters, reversed). -/
def wordsAux : List Char → List Char → List String
  | [], acc => if acc.isEmpty then [] else [String.mk acc.reverse]
  | c :: cs, acc =>
    if c.isWhitespace then
      if acc.isEmpty then wordsAux cs []
      else String.mk acc.reverse :: wordsAux cs []
    else wordsAux cs (c :: acc)

/-- Model of Python `str.split()` with no separator: the maximal runs of
non-whitespace characters. -/
def words (s : String) : List String := wordsAux s.toList []

/-- `startsWithList n h` holds when the character list `n` is an initial
segment of `h`. -/
def startsWithList : List Char → List Char → Bool
  | [], _ => true
  | _ :: _, [] => false
  | a :: as, b :: bs => a == b && startsWithList as bs

/-- `containsList n h`: `n` occurs as a contiguous sublist of `h`
(model of Python `n in h` on strings; the empty list is contained in
everything). -/
def containsList (n : List Char) : List Char → Bool
  | [] => n.isEmpty
  | c :: t => startsWithList n (c :: t) || containsList n t

/-- Model of Python `needle in hay` on strings (substring containment). -/
def strContains (hay needle : String) : Bool :=
  containsList needle.toList hay.toList

/-- Model of Python `" ".join(parts)`. -/
def joinSpace : List String → String
  | [] => ""
  | [p] => p
  | p :: ps => p ++ " " ++ joinSpace ps

/-! ### Data model -/

/-- The fields of a `Question` row read by the grading engine (see module
doc-comment for the omitted persistence-only fields).  `keywords_criteria`
models `grading_criteria.get("keywords", [])`. -/
structure Question where
  question_type : String
  question_text : String
  marks : ℚ
  expected_answer : String
  keywords_criteria : List String
  deriving Repr, DecidableEq

/-- The metadata dictionary attached to a grading result.  Each grading
strategy fills a different subset of keys, modelled with `Option` fields. -/
structure Metadata where
  grading_method : String
  expected : Option String := none
  submitted : Option String := none
  keyword_score : Option ℚ := none
  similarity_score : Option ℚ := none
  combined_score : Option ℚ := none
  length_score : Option ℚ := none
  word_count : Option ℕ := none
  deriving Repr, DecidableEq

/-- The dictionary returned by `grade_answer`. -/
structure GradingResult where
  score : ℚ
  feedback : String
  is_correct : Bool
  metadata : Metadata
  deriving Repr, DecidableEq

/-- Abstract model of the external similarity engine
(`TfidfVectorizer(stop_words="english")` + `cosine_similarity`): a pure
function of the two texts, `none` when vectorization raises. -/
structure Vectorizer where
  cosineTfidf : String → String → Option ℚ

/-! ### MockGradingService helpers -/

/-- Model of `MockGradingService._normalize_text`: `text.strip().upper()`. -/
def normalize_text (text : String) : String := upperStr (trimStr text)

/-- Model of Python `round(x, 2)` over exact rationals: round `x` to the
nearest multiple of `1/100`. -/
def round2 (x : ℚ) : ℚ := (round (x * 100) : ℤ) / 100

/-- A word character for the regex `\b[a-zA-Z]{4,}\b` (Python `\w`, ASCII). -/
def isWordChar (c : Char) : Bool := c.isAlphanum || c == '_'

/-- Split a character list into its maximal runs of word characters
(the accumulator holds the current run, reversed). -/
def wordRunsAux : List Char → List Char → List (List Char)
  | [], acc => if acc.isEmpty then [] else [acc.reverse]
  | c :: cs, acc =>
    if isWordChar c then wordRunsAux cs (c :: acc)
    else if acc.isEmpty then wordRunsAux cs []
    else acc.reverse :: wordRunsAux cs []

/-- Maximal runs of word characters of a string. -/
def wordRuns (s : String) : List (List Char) := wordRunsAux s.toList []

/-- Model of `re.findall(r"\b[a-zA-Z]{4,}\b", text.lower())`: a maximal
word-character run of the lowered text matches exactly when it consists only
of letters and has length at least 4. -/
def keywordTokens (text : String) : List String :=
  ((wordRuns (lowerStr text)).filter fun r => r.all Char.isAlpha && 4 ≤ r.length).map
    fun r => String.mk r

/-- Occurrences of `w` in `ws` (the counts held in the Python `word_freq`
dictionary). -/
def countOcc (w : String) (ws : List String) : ℕ := ws.countP fun x => x == w

/-- First-seen-order deduplication (the key order of a Python dict built by
insertion). -/
def dedupFirstAux : List String → List String → List String
  | [], _ => []
  | w :: ws, seen =>
    if w ∈ seen then dedupFirstAux ws seen else w :: dedupFirstAux ws (w :: seen)

/-- Keys of the Python `word_freq` dict, in insertion (first-seen) order. -/
def dedupFirst (ws : List String) : List String := dedupFirstAux ws []

/-- Insert `x` into `l` before the first element whose key is `≤ key x`
(one step of a stable descending insertion sort). -/
def insertDescBy (key : String → ℕ) (x : String) : List String → List String
  | [] => [x]
  | y :: ys => if key y ≤ key x then x :: y :: ys else y :: insertDescBy key x ys

/-- Stable descending sort by `key`; models Python
`sorted(items, key=count, reverse=True)` (stable, ties keep list order). -/
def sortDescBy (key : String → ℕ) : List String → List String
  | [] => []
  | x :: xs => insertDescBy key x (sortDescBy key xs)

/-- Model of `MockGradingService._extract_keywords(text, top_n)`. -/
def extract_keywords (text : String) (top_n : ℕ) : List String :=
  let ws := keywordTokens text
  (sortDescBy (fun w => countOcc w ws) (dedupFirst ws)).take top_n

/-- Model of `MockGradingService._calculate_keyword_score`.  The keyword list
comes from `grading_criteria.get("keywords", [])`, falling back to
`_extract_keywords(expected_answer)` (with the default `top_n = 5`) when that
list is empty; an empty final list gives the neutral score `1/2`, otherwise
the matched ratio. -/
def calculate_keyword_score (q : Question) (answer_text : String) : ℚ :=
  let keywords :=
    if q.keywords_criteria = [] then extract_keywords q.expected_answer 5
    else q.keywords_criteria
  if keywords = [] then 1/2
  else
    let answer_lower := lowerStr answer_text
    let matched := keywords.countP fun kw => strContains answer_lower (lowerStr kw)
    (matched : ℚ) / (keywords.length : ℚ)

/-- Model of `MockGradingService._calculate_similarity`: short-circuit to `0`
on empty/whitespace-only input, otherwise ask the vectorizer; on vectorizer
failure fall back to word-set overlap over lower-cased whitespace tokens. -/
def calculate_similarity (v : Vectorizer) (expected submitted : String) : ℚ :=
  if trimStr expected = "" ∨ trimStr submitted = "" then 0
  else
    match v.cosineTfidf expected submitted with
    | some s => s
    | none =>
      let expected_words := dedupFirst (words (lowerStr expected))
      let submitted_words := words (lowerStr submitted)
      if expected_words = [] then 0
      else
        let overlap := (expected_words.filter fun w => w ∈ submitted_words).length
        (overlap : ℚ) / (expected_words.length : ℚ)

/-- Model of `MockGradingService._calculate_length_score`. -/
def calculate_length_score (text : String) : ℚ :=
  let word_count := (words text).length
  if word_count < 50 then 3/10
  else if word_count < 100 then 6/10
  else if word_count < 200 then 9/10
  else 1

/-- Model of `MockGradingService._generate_feedback` (short answers). -/
def generate_feedback (combined _keyword _similarity : ℚ) : String :=
  if combined ≥ 9/10 then "Excellent answer! Well done."
  else if combined ≥ 7/10 then "Good answer. You covered the main points."
  else if combined ≥ 1/2 then
    "Partial credit. Your answer covers some key concepts but could be improved."
  else "Your answer needs improvement. Please review the key concepts."

/-- Model of `MockGradingService._generate_detailed_feedback` (long answers
and essays): independently triggered clauses joined by single spaces. -/
def generate_detailed_feedback (combined length keyword similarity : ℚ)
    (answer : String) : String :=
  let overall :=
    if combined ≥ 8/10 then "Excellent comprehensive answer!"
    else if combined ≥ 6/10 then "Good answer with room for improvement."
    else "Your answer needs significant improvement."
  let word_count := (words answer).length
  joinSpace
    ([overall]
      ++ (if length < 6/10 then
            ["Consider expanding your answer (current: " ++ toString word_count
              ++ " words)."]
          else [])
      ++ (if keyword < 1/2 then ["Include more key concepts from the topic."] else [])
      ++ (if similarity < 4/10 then
            ["Your answer could align better with the expected content."]
          else []))

/-! ### MockGradingService strategies and dispatch -/

/-- Model of `MockGradingService._grade_mcq` (exact matching). -/
def grade_mcq (q : Question) (answer_text : String) : GradingResult :=
  let expected := normalize_text q.expected_answer
  let submitted := normalize_text answer_text
  let is_correct := expected == submitted
  let score : ℚ := if is_correct then q.marks else 0
  let feedback :=
    if is_correct then "Correct answer!"
    else "Incorrect. Expected: " ++ q.expected_answer
  { score := score
    feedback := feedback
    is_correct := is_correct
    metadata :=
      { grading_method := "exact_match"
        expected := some expected
        submitted := some submitted } }

/-- Model of `MockGradingService._grade_short_answer` (60% keywords, 40%
similarity, correctness threshold 0.7). -/
def grade_short_answer (v : Vectorizer) (q : Question) (answer_text : String) :
    GradingResult :=
  let keyword_score := calculate_keyword_score q answer_text
  let similarity_score := calculate_similarity v q.expected_answer answer_text
  let combined_score := 6/10 * keyword_score + 4/10 * similarity_score
  let final_score := q.marks * combined_score
  { score := round2 final_score
    feedback := generate_feedback combined_score keyword_score similarity_score
    is_correct := decide (combined_score ≥ 7/10)
    metadata :=
      { grading_method := "keyword_similarity"
        keyword_score := some (round2 keyword_score)
        similarity_score := some (round2 similarity_score)
        combined_score := some (round2 combined_score) } }

/-- Model of `MockGradingService._grade_long_answer` (30% length, 30%
keywords, 40% similarity, correctness threshold 0.6). -/
def grade_long_answer (v : Vectorizer) (q : Question) (answer_text : String) :
    GradingResult :=
  let length_score := calculate_length_score answer_text
  let keyword_score := calculate_keyword_score q answer_text
  let similarity_score := calculate_similarity v q.expected_answer answer_text
  let combined_score :=
    3/10 * length_score + 3/10 * keyword_score + 4/10 * similarity_score
  let final_score := q.marks * combined_score
  { score := round2 final_score
    feedback :=
      generate_detailed_feedback combined_score length_score keyword_score
        similarity_score answer_text
    is_correct := decide (combined_score ≥ 6/10)
    metadata :=
      { grading_method := "comprehensive"
        length_score := some (round2 length_score)
        keyword_score := some (round2 keyword_score)
        similarity_score := some (round2 similarity_score)
        combined_score := some (round2 combined_score)
        word_count := some (words answer_text).length } }

/-- Model of `MockGradingService.grade_answer`: the type router.  As in the
source, the final `else` branch (commented `# LONG or ESSAY`) catches every
question type other than `MCQ`, `TRUE_FALSE` and `SHORT`. -/
def grade_answer (v : Vectorizer) (q : Question) (answer_text : String) :
    GradingResult :=
  if q.question_type = "MCQ" ∨ q.question_type = "TRUE_FALSE" then
    grade_mcq q answer_text
  else if q.question_type = "SHORT" then grade_short_answer v q answer_text
  else grade_long_answer v q answer_text

/-! ### LLM service and factory -/

/-- The errors a grading call can raise.  The source raises
`NotImplementedError("LLM grading service not implemented")` from
`LLMGradingService.grade_answer`; no other grading-path exception exists. -/
inductive GradingError where
  | notImplementedError (msg : String)
  deriving Repr, DecidableEq

/-- Model of `LLMGradingService.__init__`: construction always succeeds and
just stores the configuration. -/
structure LLMGradingService where
  api_key : Option String
  model : String
  deriving Repr, DecidableEq

/-- Model of `LLMGradingService.grade_answer`: unconditionally raises. -/
def LLMGradingService.grade_answer (_s : LLMGradingService) (_q : Question)
    (_answer_text : String) : Except GradingError GradingResult :=
  .error (.notImplementedError "LLM grading service not implemented")

/-- The value returned by the factory: either the mock engine or a
constructed LLM engine. -/
inductive GradingService where
  | mock
  | llm (s : LLMGradingService)
  deriving Repr, DecidableEq

/-- The default value of the factory's `service_type` parameter. -/
def default_service_type : String := "mock"

/-- Model of `get_grading_service`: `"mock"` and every unrecognized string
give the mock engine; `"llm"` gives `LLMGradingService()` with its default
configuration (`api_key=None`, `model="gpt-4"`). -/
def get_grading_service (service_type : String) : GradingService :=
  if service_type = "mock" then .mock
  else if service_type = "llm" then .llm { api_key := none, model := "gpt-4" }
  else .mock

/-! ### Stateful call model (for the determinism claim) -/

/-- Model of a `MockGradingService` instance: the only held state is the
vectorizer created in `__init__`.  `fit_transform` re-fits from scratch on
the two texts of each call, so the post-call state is observationally the
initial one. -/
structure MockServiceState where
  vectorizer : Vectorizer

/-- One `grade_answer` call on an instance: the result together with the
instance state afterwards. -/
def stepCall (s : MockServiceState) (q : Question) (answer_text : String) :
    GradingResult × MockServiceState :=
  (grade_answer s.vectorizer q answer_text, s)

/-- Run a list of prior calls on an instance, returning its final state. -/
def runCalls (s : MockServiceState) : List (Question × String) → MockServiceState
  | [] => s
  | c :: cs => runCalls (stepCall s c.1 c.2).2 cs

/-! ### Sample inputs used by witnesses -/

/-- A vectorizer that always raises: every call takes the word-overlap
fallback path of `_calculate_similarity`. -/
def constNoneVectorizer : Vectorizer := ⟨fun _ _ => none⟩

/-- A question whose type is none of the five supported ones. -/
def unknownTypeQuestion : Question :=
  { question_type := "CODE"
    question_text := "Write a loop"
    marks := 5
    expected_answer := "ref"
    keywords_criteria := [] }

/-- A sample MCQ question with reference choice `"B"`. -/
def mcqSample : Question :=
  { question_type := "MCQ"
    question_text := "Pick one"
    marks := 5
    expected_answer := "B"
    keywords_criteria := [] }

/-- A sample short-answer question. -/
def shortSample : Question :=
  { question_type := "SHORT"
    question_text := "Capital of France?"
    marks := 10
    expected_answer := "paris"
    keywords_criteria := [] }

/-- A sample essay question. -/
def essaySample : Question :=
  { question_type := "ESSAY"
    question_text := "Explain."
    marks := 10
    expected_answer := "Powerhouse mitochondria energy"
    keywords_criteria := [] }

/-- A sample question whose configured keyword list is `[""]`. -/
def emptyKeywordSample : Question :=
  { question_type := "SHORT"
    question_text := "Anything"
    marks := 10
    expected_answer := "reference"
    keywords_criteria := [""] }

/-! ### Helper lemmas -/

theorem containsList_nil_left (l : List Char) : containsList [] l = true := by
  cases l <;> simp [containsList, startsWithList]

theorem append_ne_empty_left (a b : String) (ha : a ≠ "") : a ++ b ≠ "" := by
  intro h
  have hd := congrArg String.data h
  rw [String.data_append] at hd
  have hnil : a.data = [] ∧ b.data = [] := by
    refine List.append_eq_nil.mp ?_
    simpa using hd
  exact ha (String.ext (by simp [hnil.1]))

theorem joinSpace_ne_empty (p : String) (ps : List String) (hp : p ≠ "") :
    joinSpace (p :: ps) ≠ "" := by
  cases ps with
  | nil => simpa [joinSpace] using hp
  | cons q qs =>
    show p ++ " " ++ joinSpace (q :: qs) ≠ ""
    exact append_ne_empty_left _ _ (append_ne_empty_left p " " hp)

theorem insertDescBy_perm (key : String → ℕ) (x : String) (l : List String) :
    List.Perm (insertDescBy key x l) (x :: l) := by
  induction l with
  | nil => exact List.Perm.refl _
  | cons y ys ih =>
    unfold insertDescBy
    by_cases h : key y ≤ key x
    · rw [if_pos h]
    · rw [if_neg h]
      exact (List.Perm.cons y ih).trans (List.Perm.swap x y ys)

theorem sortDescBy_perm (key : String → ℕ) (l : List String) :
    List.Perm (sortDescBy key l) l := by
  induction l with
  | nil => exact List.Perm.refl _
  | cons x xs ih =>
    exact (insertDescBy_perm key x (sortDescBy key xs)).trans (List.Perm.cons x ih)

theorem insertDescBy_pairwise (key : String → ℕ) (x : String) (l : List String)
    (h : l.Pairwise fun a b => key b ≤ key a) :
    (insertDescBy key x l).Pairwise fun a b => key b ≤ key a := by
  induction l with
  | nil => simp [insertDescBy]
  | cons y ys ih =>
    rw [List.pairwise_cons] at h
    unfold insertDescBy
    by_cases hxy : key y ≤ key x
    · rw [if_pos hxy]
      refine List.Pairwise.cons ?_ (List.Pairwise.cons h.1 h.2)
      intro b hb
      rcases List.mem_cons.mp hb with rfl | hb
      · exact hxy
      · exact le_trans (h.1 b hb) hxy
    · rw [if_neg hxy]
      refine List.Pairwise.cons ?_ (ih h.2)
      intro b hb
      have hb' : b ∈ x :: ys :=
        (insertDescBy_perm key x ys).mem_iff.mp hb
      rcases List.mem_cons.mp hb' with rfl | hb'
      · exact le_of_lt (Nat.lt_of_not_le hxy)
      · exact h.1 b hb'

theorem sortDescBy_pairwise (key : String → ℕ) (l : List String) :
    (sortDescBy key l).Pairwise fun a b => key b ≤ key a := by
  induction l with
  | nil => simp [sortDescBy]
  | cons x xs ih => exact insertDescBy_pairwise key x _ ih

theorem filter_insertDescBy (key : String → ℕ) (x : String) (l : List String)
    (f : ℕ) :
    (insertDescBy key x l).filter (fun w => key w == f)
      = if key x = f then x :: l.filter (fun w => key w == f)
        else l.filter (fun w => key w == f) := by
  induction l with
  | nil =>
    by_cases h : key x = f <;>
      simp [insertDescBy, List.filter_cons, beq_iff_eq, h]
  | cons y ys ih =>
    unfold insertDescBy
    by_cases hxy : key y ≤ key x
    · rw [if_pos hxy]
      by_cases h : key x = f
      · simp [List.filter_cons, h]
      · simp [List.filter_cons, h]
    · rw [if_neg hxy]
      by_cases h : key x = f
      · have hy : ¬ key y = f := by
          intro hyf
          exact hxy (by omega)
        simp [List.filter_cons, ih, h, hy]
      · simp [List.filter_cons, ih, h]

theorem filter_sortDescBy (key : String → ℕ) (l : List String) (f : ℕ) :
    (sortDescBy key l).filter (fun w => key w == f)
      = l.filter (fun w => key w == f) := by
  induction l with
  | nil => rfl
  | cons x xs ih =>
    show (insertDescBy key x (sortDescBy key xs)).filter _ = _
    rw [filter_insertDescBy]
    by_cases h : key x = f
    · simp [List.filter_cons, h, ih]
    · simp [List.filter_cons, h, ih]

theorem mem_dedupFirstAux (l seen : List String) (w : String) :
    w ∈ dedupFirstAux l seen ↔ w ∈ l ∧ w ∉ seen := by
  induction l generalizing seen with
  | nil => simp [dedupFirstAux]
  | cons x xs ih =>
    unfold dedupFirstAux
    by_cases hx : x ∈ seen
    · rw [if_pos hx, ih]
      constructor
      · rintro ⟨h1, h2⟩
        exact ⟨List.mem_cons_of_mem x h1, h2⟩
      · rintro ⟨h1, h2⟩
        rcases List.mem_cons.mp h1 with rfl | h1
        · exact absurd hx h2
        · exact ⟨h1, h2⟩
    · rw [if_neg hx]
      simp only [List.mem_cons, ih]
      constructor
      · rintro (rfl | ⟨h1, h2⟩)
        · exact ⟨Or.inl rfl, hx⟩
        · exact ⟨Or.inr h1, fun hs => h2 (Or.inr hs)⟩
      · rintro ⟨rfl | h1, h2⟩
        · exact Or.inl rfl
        · by_cases hw : w = x
          · exact Or.inl hw
          · exact Or.inr ⟨h1, fun hs => hs.elim hw h2⟩

theorem dedupFirstAux_sublist (l seen : List String) :
    List.Sublist (dedupFirstAux l seen) l := by
  induction l generalizing seen with
  | nil => simp [dedupFirstAux]
  | cons x xs ih =>
    unfold dedupFirstAux
    by_cases hx : x ∈ seen
    · rw [if_pos hx]
      exact List.Sublist.cons x (ih seen)
    · rw [if_neg hx]
      exact List.Sublist.cons₂ x (ih (x :: seen))

theorem round2_mono {x y : ℚ} (h : x ≤ y) : round2 x ≤ round2 y := by
  unfold round2
  have hr : round (x * 100) ≤ round (y * 100) := by
    rw [round_eq, round_eq]
    exact Int.floor_mono (by linarith)
  have hc : ((round (x * 100) : ℤ) : ℚ) ≤ ((round (y * 100) : ℤ) : ℚ) :=
    Int.cast_le.mpr hr
  exact div_le_div_of_nonneg_right hc (by norm_num) |>.trans_eq rfl

theorem round2_zero : round2 0 = 0 := by
  simp [round2]

theorem round2_nonneg {x : ℚ} (h : 0 ≤ x) : 0 ≤ round2 x := by
  have := round2_mono h
  rwa [round2_zero] at this

theorem round2_eq_self_of_cent {m : ℚ} (h : ∃ n : ℤ, m = n / 100) :
    round2 m = m := by
  obtain ⟨n, rfl⟩ := h
  unfold round2
  rw [div_mul_cancel₀ (h := by norm_num), round_intCast]

theorem round2_le_of_le_cent {x m : ℚ} (hxm : x ≤ m) (h : ∃ n : ℤ, m = n / 100) :
    round2 x ≤ m := by
  calc round2 x ≤ round2 m := round2_mono hxm
    _ = m := round2_eq_self_of_cent h

theorem div_nat_mem (n m : ℕ) (hnm : n ≤ m) (hm : 0 < m) :
    0 ≤ (n : ℚ) / (m : ℚ) ∧ (n : ℚ) / (m : ℚ) ≤ 1 := by
  constructor
  · positivity
  · rw [div_le_one (by exact_mod_cast hm)]
    exact_mod_cast hnm

theorem calculate_keyword_score_mem (q : Question) (a : String) :
    0 ≤ calculate_keyword_score q a ∧ calculate_keyword_score q a ≤ 1 := by
  by_cases h1 : q.keywords_criteria = []
  · by_cases h2 : extract_keywords q.expected_answer 5 = []
    · simp only [calculate_keyword_score, h1, h2]
      norm_num
    · have := div_nat_mem
        ((extract_keywords q.expected_answer 5).countP
          fun kw => strContains (lowerStr a) (lowerStr kw))
        (extract_keywords q.expected_answer 5).length
        (List.countP_le_length _) (List.length_pos.mpr h2)
      simpa [calculate_keyword_score, h1, h2] using this
  · have := div_nat_mem
      (q.keywords_criteria.countP fun kw => strContains (lowerStr a) (lowerStr kw))
      q.keywords_criteria.length
      (List.countP_le_length _) (List.length_pos.mpr h1)
    simpa [calculate_keyword_score, h1] using this

theorem calculate_similarity_mem (v : Vectorizer) (e s : String)
    (hv : ∀ x y r, v.cosineTfidf x y = some r → 0 ≤ r ∧ r ≤ 1) :
    0 ≤ calculate_similarity v e s ∧ calculate_similarity v e s ≤ 1 := by
  by_cases h : trimStr e = "" ∨ trimStr s = ""
  · simp [calculate_similarity, h]
  · cases hveq : v.cosineTfidf e s with
    | some r =>
      have := hv e s r hveq
      simpa [calculate_similarity, h, hveq] using this
    | none =>
      by_cases hew : dedupFirst (words (lowerStr e)) = []
      · simp [calculate_similarity, h, hveq, hew]
      · have := div_nat_mem
          ((dedupFirst (words (lowerStr e))).filter
            (fun w => w ∈ words (lowerStr s))).length
          (dedupFirst (words (lowerStr e))).length
          (List.length_filter_le _ _) (List.length_pos.mpr hew)
        simpa [calculate_similarity, h, hveq, hew] using this

theorem calculate_length_score_mem (text : String) :
    0 ≤ calculate_length_score text ∧ calculate_length_score text ≤ 1 := by
  simp only [calculate_length_score]
  split_ifs <;> norm_num

theorem generate_feedback_ne_empty (c k s : ℚ) :
    generate_feedback c k s ≠ "" := by
  unfold generate_feedback
  split
  · decide
  · split
    · decide
    · split <;> decide

theorem generate_detailed_feedback_ne_empty (c l k s : ℚ) (a : String) :
    generate_detailed_feedback c l k s a ≠ "" := by
  unfold generate_detailed_feedback
  refine joinSpace_ne_empty _ _ ?_
  split
  · decide
  · split <;> decide

theorem grade_answer_eq_mcq (v : Vectorizer) (q : Question) (a : String)
    (h : q.question_type = "MCQ" ∨ q.question_type = "TRUE_FALSE") :
    grade_answer v q a = grade_mcq q a := by
  unfold grade_answer
  rw [if_pos h]

theorem grade_answer_eq_short (v : Vectorizer) (q : Question) (a : String)
    (h : q.question_type = "SHORT") :
    grade_answer v q a = grade_short_answer v q a := by
  unfold grade_answer
  rw [h]
  rw [if_neg (by decide), if_pos rfl]

theorem grade_answer_eq_long (v : Vectorizer) (q : Question) (a : String)
    (h : q.question_type = "LONG" ∨ q.question_type = "ESSAY") :
    grade_answer v q a = grade_long_answer v q a := by
  unfold grade_answer
  rcases h with h | h <;> rw [h] <;> rw [if_neg (by decide), if_neg (by decide)]

theorem dedupFirstAux_nodup (l seen : List String) :
    (dedupFirstAux l seen).Nodup := by
  induction l generalizing seen with
  | nil => simp [dedupFirstAux]
  | cons x xs ih =>
    unfold dedupFirstAux
    by_cases hx : x ∈ seen
    · rw [if_pos hx]
      exact ih seen
    · rw [if_neg hx]
      refine List.Nodup.cons ?_ (ih (x :: seen))
      intro hmem
      exact ((mem_dedupFirstAux xs (x :: seen) x).mp hmem).2 (List.mem_cons_self x seen)



/-! ### Claim theorems -/

/-- C1: the claim says a question whose type is none of MCQ, TRUE_FALSE,
SHORT, LONG, ESSAY makes `grade_answer` raise a `ConfigurationError`.  The
code has no such error: its dispatcher's final `else` silently grades any
unknown type with the long-answer (comprehensive) strategy, as this closed
evaluation shows. -/
theorem unknown_type_silently_dispatched :
    (grade_answer constNoneVectorizer unknownTypeQuestion
        "an answer").metadata.grading_method = "comprehensive"
    ∧ unknownTypeQuestion.question_type ∉
        (["MCQ", "TRUE_FALSE", "SHORT", "LONG", "ESSAY"] : List String) := by
  constructor
  · rfl
  · decide

theorem grade_mcq_bounds (q : Question) (a : String) (hm : 0 ≤ q.marks) :
    0 ≤ (grade_mcq q a).score ∧ (grade_mcq q a).score ≤ q.marks
      ∧ (grade_mcq q a).feedback ≠ "" := by
  unfold grade_mcq
  by_cases hb : (normalize_text q.expected_answer == normalize_text a) = true
  · simp only [hb, if_true]
    exact ⟨hm, le_refl _, by decide⟩
  · simp only [hb, if_false]
    exact ⟨le_refl _, hm, append_ne_empty_left _ _ (by decide)⟩

theorem grade_short_answer_bounds (v : Vectorizer) (q : Question) (a : String)
    (hv : ∀ x y r, v.cosineTfidf x y = some r → 0 ≤ r ∧ r ≤ 1)
    (hm : 0 ≤ q.marks) (hcent : ∃ n : ℤ, q.marks = n / 100) :
    0 ≤ (grade_short_answer v q a).score
      ∧ (grade_short_answer v q a).score ≤ q.marks
      ∧ (grade_short_answer v q a).feedback ≠ "" := by
  obtain ⟨hk0, hk1⟩ := calculate_keyword_score_mem q a
  obtain ⟨hs0, hs1⟩ := calculate_similarity_mem v q.expected_answer a hv
  have hc0 : 0 ≤ 6/10 * calculate_keyword_score q a
      + 4/10 * calculate_similarity v q.expected_answer a := by linarith
  have hc1 : 6/10 * calculate_keyword_score q a
      + 4/10 * calculate_similarity v q.expected_answer a ≤ 1 := by linarith
  refine ⟨round2_nonneg (mul_nonneg hm hc0),
    round2_le_of_le_cent (mul_le_of_le_one_right hm hc1) hcent, ?_⟩
  exact generate_feedback_ne_empty
    (6/10 * calculate_keyword_score q a
      + 4/10 * calculate_similarity v q.expected_answer a)
    (calculate_keyword_score q a) (calculate_similarity v q.expected_answer a)

theorem grade_long_answer_bounds (v : Vectorizer) (q : Question) (a : String)
    (hv : ∀ x y r, v.cosineTfidf x y = some r → 0 ≤ r ∧ r ≤ 1)
    (hm : 0 ≤ q.marks) (hcent : ∃ n : ℤ, q.marks = n / 100) :
    0 ≤ (grade_long_answer v q a).score
      ∧ (grade_long_answer v q a).score ≤ q.marks
      ∧ (grade_long_answer v q a).feedback ≠ "" := by
  obtain ⟨hk0, hk1⟩ := calculate_keyword_score_mem q a
  obtain ⟨hs0, hs1⟩ := calculate_similarity_mem v q.expected_answer a hv
  obtain ⟨hl0, hl1⟩ := calculate_length_score_mem a
  have hc0 : 0 ≤ 3/10 * calculate_length_score a
      + 3/10 * calculate_keyword_score q a
      + 4/10 * calculate_similarity v q.expected_answer a := by linarith
  have hc1 : 3/10 * calculate_length_score a
      + 3/10 * calculate_keyword_score q a
      + 4/10 * calculate_similarity v q.expected_answer a ≤ 1 := by linarith
  refine ⟨round2_nonneg (mul_nonneg hm hc0),
    round2_le_of_le_cent (mul_le_of_le_one_right hm hc1) hcent, ?_⟩
  exact generate_detailed_feedback_ne_empty
    (3/10 * calculate_length_score a + 3/10 * calculate_keyword_score q a
      + 4/10 * calculate_similarity v q.expected_answer a)
    (calculate_length_score a) (calculate_keyword_score q a)
    (calculate_similarity v q.expected_answer a) a

/-- C2: for the five supported question types, every `grade_answer` result
(the engine never raises: the function is total) has a score between `0` and
`question.marks` and a non-empty feedback string.  The hypotheses record the
data model (`marks` is a non-negative 2-decimal-place value) and the fact
that cosine similarity of non-negative TF-IDF vectors lies in `[0, 1]`. -/
theorem grade_answer_score_bounds (v : Vectorizer) (q : Question) (a : String)
    (hv : ∀ x y r, v.cosineTfidf x y = some r → 0 ≤ r ∧ r ≤ 1)
    (hm : 0 ≤ q.marks) (hcent : ∃ n : ℤ, q.marks = n / 100)
    (ht : q.question_type = "MCQ" ∨ q.question_type = "TRUE_FALSE"
      ∨ q.question_type = "SHORT" ∨ q.question_type = "LONG"
      ∨ q.question_type = "ESSAY") :
    0 ≤ (grade_answer v q a).score ∧ (grade_answer v q a).score ≤ q.marks
      ∧ (grade_answer v q a).feedback ≠ "" := by
  rcases ht with h | h | h | h | h
  · rw [grade_answer_eq_mcq v q a (Or.inl h)]
    exact grade_mcq_bounds q a hm
  · rw [grade_answer_eq_mcq v q a (Or.inr h)]
    exact grade_mcq_bounds q a hm
  · rw [grade_answer_eq_short v q a h]
    exact grade_short_answer_bounds v q a hv hm hcent
  · rw [grade_answer_eq_long v q a (Or.inl h)]
    exact grade_long_answer_bounds v q a hv hm hcent
  · rw [grade_answer_eq_long v q a (Or.inr h)]
    exact grade_long_answer_bounds v q a hv hm hcent

/-- C2 witness: the bounds at a concrete MCQ call. -/
theorem grade_answer_score_bounds_witness :
    0 ≤ mcqSample.marks
    ∧ 0 ≤ (grade_answer constNoneVectorizer mcqSample "b").score
    ∧ (grade_answer constNoneVectorizer mcqSample "b").score ≤ mcqSample.marks
    ∧ (grade_answer constNoneVectorizer mcqSample "b").feedback ≠ "" := by
  have h := grade_answer_score_bounds constNoneVectorizer mcqSample "b"
    (fun _ _ _ hr => Option.noConfusion hr)
    (by norm_num [mcqSample]) ⟨500, by norm_num [mcqSample]⟩ (Or.inl rfl)
  exact ⟨by norm_num [mcqSample], h.1, h.2.1, h.2.2⟩

/-- C3: the keyword score uses `grading_criteria["keywords"]` when non-empty,
otherwise the auto-extracted keywords of `expected_answer`; an empty final
list scores exactly `1/2`, otherwise the case-insensitive substring-match
ratio.  The extracted list is the first five entries of the distinct tokens
(alphabetic, length ≥ 4, taken from the lowered text) ordered by decreasing
frequency with ties in first-seen order: the conjuncts pin this down as a
sublist characterization of the distinct tokens plus a
permutation/sortedness/stability characterization of the ordering. -/
theorem keyword_score_characterization (q : Question) (a : String) :
    (calculate_keyword_score q a =
      (let kws :=
        if q.keywords_criteria = [] then extract_keywords q.expected_answer 5
        else q.keywords_criteria
       if kws = [] then 1/2
       else ((kws.countP fun kw => strContains (lowerStr a) (lowerStr kw) : ℕ) : ℚ)
          / (kws.length : ℚ)))
    ∧ (let toks := keywordTokens q.expected_answer
       let key : String → ℕ := fun w => countOcc w toks
       let uniq := dedupFirst toks
       let sorted := sortDescBy key uniq
       extract_keywords q.expected_answer 5 = sorted.take 5
       ∧ List.Sublist uniq toks
       ∧ uniq.Nodup
       ∧ (∀ w, w ∈ uniq ↔ w ∈ toks)
       ∧ List.Perm sorted uniq
       ∧ sorted.Pairwise (fun x y => key y ≤ key x)
       ∧ (∀ f, sorted.filter (fun w => key w == f)
            = uniq.filter (fun w => key w == f))) := by
  refine ⟨rfl, rfl, dedupFirstAux_sublist _ _, dedupFirstAux_nodup _ _, ?_,
    sortDescBy_perm _ _, sortDescBy_pairwise _ _, fun f => filter_sortDescBy _ _ f⟩
  intro w
  rw [show dedupFirst (keywordTokens q.expected_answer)
      = dedupFirstAux (keywordTokens q.expected_answer) [] from rfl,
    mem_dedupFirstAux]
  simp

/-- C4: similarity short-circuits to `0` when either text is empty or
whitespace-only; on vectorizer failure it equals the word-overlap fallback
(`0` when the expected word set is empty).  `calculate_similarity` is a total
function, so an engine failure never escapes to the caller. -/
theorem similarity_fallback_spec (v : Vectorizer) (e s : String) :
    (trimStr e = "" ∨ trimStr s = "" → calculate_similarity v e s = 0)
    ∧ (¬(trimStr e = "" ∨ trimStr s = "") → v.cosineTfidf e s = none →
        calculate_similarity v e s =
          (let expected_words := dedupFirst (words (lowerStr e))
           if expected_words = [] then 0
           else ((expected_words.filter fun w => w ∈ words (lowerStr s)).length : ℚ)
              / (expected_words.length : ℚ))) := by
  constructor
  · intro h
    unfold calculate_similarity
    rw [if_pos h]
  · intro h1 h2
    unfold calculate_similarity
    rw [if_neg h1, h2]

/-- C4 witness: a concrete vectorizer failure recovered by word overlap. -/
theorem similarity_fallback_spec_witness :
    ¬(trimStr "hello world" = "" ∨ trimStr "hello there" = "")
    ∧ constNoneVectorizer.cosineTfidf "hello world" "hello there" = none
    ∧ calculate_similarity constNoneVectorizer "hello world" "hello there" = 1/2
    ∧ calculate_similarity constNoneVectorizer "   " "hello" = 0 := by
  refine ⟨by decide, rfl, ?_, ?_⟩
  · exact ((similarity_fallback_spec constNoneVectorizer "hello world"
      "hello there").2 (by decide) rfl).trans (by with_unfolding_all rfl)
  · exact (similarity_fallback_spec constNoneVectorizer "   " "hello").1
      (Or.inl (by decide))

/-- C5: short-answer grading combines the two sub-scores with weights
60%/40%, scales by the marks with 2-decimal rounding, marks correct at
threshold 0.7, and selects feedback by the fixed thresholds 0.9/0.7/0.5. -/
theorem short_answer_formula (v : Vectorizer) (q : Question) (a : String)
    (h : q.question_type = "SHORT") :
    let k := calculate_keyword_score q a
    let sim := calculate_similarity v q.expected_answer a
    let c := 6/10 * k + 4/10 * sim
    (grade_answer v q a).score = round2 (q.marks * c)
    ∧ (grade_answer v q a).is_correct = decide (c ≥ 7/10)
    ∧ (grade_answer v q a).feedback =
        (if c ≥ 9/10 then "Excellent answer! Well done."
         else if c ≥ 7/10 then "Good answer. You covered the main points."
         else if c ≥ 1/2 then
           "Partial credit. Your answer covers some key concepts but could be improved."
         else "Your answer needs improvement. Please review the key concepts.")
    ∧ (grade_answer v q a).metadata.combined_score = some (round2 c)
    ∧ (grade_answer v q a).metadata.grading_method = "keyword_similarity" := by
  rw [grade_answer_eq_short v q a h]
  exact ⟨rfl, rfl, rfl, rfl, rfl⟩

/-- C5 witness: a perfect short answer gets the full marks and the
`Excellent` feedback. -/
theorem short_answer_formula_witness :
    shortSample.question_type = "SHORT"
    ∧ (grade_answer constNoneVectorizer shortSample "paris").score = 10
    ∧ (grade_answer constNoneVectorizer shortSample "paris").is_correct = true
    ∧ (grade_answer constNoneVectorizer shortSample "paris").feedback
        = "Excellent answer! Well done." := by
  obtain ⟨h1, h2, h3, _⟩ :=
    short_answer_formula constNoneVectorizer shortSample "paris" rfl
  exact ⟨rfl, h1.trans (by with_unfolding_all rfl),
    h2.trans (by with_unfolding_all rfl), h3.trans (by with_unfolding_all rfl)⟩

/-- C6: long/essay grading adds a word-count length score with breakpoints
50/100/200, combines with weights 30/30/40, scales by marks with 2-decimal
rounding, marks correct at threshold 0.6, assembles feedback from
independently triggered clauses joined by single spaces, and records the raw
word count in metadata. -/
theorem long_answer_formula (v : Vectorizer) (q : Question) (a : String)
    (h : q.question_type = "LONG" ∨ q.question_type = "ESSAY") :
    let wc := (words a).length
    let len : ℚ :=
      if wc < 50 then 3/10 else if wc < 100 then 6/10
      else if wc < 200 then 9/10 else 1
    let k := calculate_keyword_score q a
    let sim := calculate_similarity v q.expected_answer a
    let c := 3/10 * len + 3/10 * k + 4/10 * sim
    (grade_answer v q a).score = round2 (q.marks * c)
    ∧ (grade_answer v q a).is_correct = decide (c ≥ 6/10)
    ∧ (grade_answer v q a).feedback =
        joinSpace
          ([if c ≥ 8/10 then "Excellent comprehensive answer!"
            else if c ≥ 6/10 then "Good answer with room for improvement."
            else "Your answer needs significant improvement."]
            ++ (if len < 6/10 then
                  ["Consider expanding your answer (current: " ++ toString wc
                    ++ " words)."]
                else [])
            ++ (if k < 1/2 then ["Include more key concepts from the topic."]
                else [])
            ++ (if sim < 4/10 then
                  ["Your answer could align better with the expected content."]
                else []))
    ∧ (grade_answer v q a).metadata.word_count = some wc
    ∧ (grade_answer v q a).metadata.combined_score = some (round2 c)
    ∧ (grade_answer v q a).metadata.grading_method = "comprehensive" := by
  rw [grade_answer_eq_long v q a h]
  exact ⟨rfl, rfl, rfl, rfl, rfl, rfl⟩

/-- C6 witness: a one-word essay answer triggers all three improvement
clauses, scores `3.23` of 10 marks, and records word count 1. -/
theorem long_answer_formula_witness :
    (essaySample.question_type = "LONG" ∨ essaySample.question_type = "ESSAY")
    ∧ (grade_answer constNoneVectorizer essaySample "mitochondria").score = 323/100
    ∧ (grade_answer constNoneVectorizer essaySample "mitochondria").is_correct = false
    ∧ (grade_answer constNoneVectorizer essaySample "mitochondria").feedback
        = ("Your answer needs significant improvement. "
          ++ "Consider expanding your answer (current: 1 words). "
          ++ "Include more key concepts from the topic. "
          ++ "Your answer could align better with the expected content.")
    ∧ (grade_answer constNoneVectorizer essaySample "mitochondria").metadata.word_count
        = some 1 := by
  obtain ⟨h1, h2, h3, h4, _⟩ :=
    long_answer_formula constNoneVectorizer essaySample "mitochondria" (Or.inr rfl)
  exact ⟨Or.inr rfl, h1.trans (by with_unfolding_all rfl),
    h2.trans (by with_unfolding_all rfl), h3.trans (by with_unfolding_all rfl),
    h4.trans (by decide)⟩

/-- C7: MCQ/TRUE_FALSE grading compares strip-then-uppercase normalizations,
awards full marks or zero, and uses the fixed feedback strings (the incorrect
one carrying the un-normalized reference text). -/
theorem mcq_exact_match (v : Vectorizer) (q : Question) (a : String)
    (h : q.question_type = "MCQ" ∨ q.question_type = "TRUE_FALSE") :
    (grade_answer v q a).is_correct
        = (upperStr (trimStr q.expected_answer) == upperStr (trimStr a))
    ∧ (grade_answer v q a).score
        = (if upperStr (trimStr q.expected_answer) == upperStr (trimStr a)
           then q.marks else 0)
    ∧ (grade_answer v q a).feedback
        = (if upperStr (trimStr q.expected_answer) == upperStr (trimStr a)
           then "Correct answer!"
           else "Incorrect. Expected: " ++ q.expected_answer)
    ∧ (grade_answer v q a).metadata.grading_method = "exact_match" := by
  rw [grade_answer_eq_mcq v q a h]
  exact ⟨rfl, rfl, rfl, rfl⟩

/-- C7 witness: `expected_answer="B"` against `"b"`, `" B "`, `"B"` and
`"A"`. -/
theorem mcq_exact_match_witness :
    (mcqSample.question_type = "MCQ" ∨ mcqSample.question_type = "TRUE_FALSE")
    ∧ (grade_answer constNoneVectorizer mcqSample "b").is_correct = true
    ∧ (grade_answer constNoneVectorizer mcqSample "b").score = mcqSample.marks
    ∧ (grade_answer constNoneVectorizer mcqSample " B ").is_correct = true
    ∧ (grade_answer constNoneVectorizer mcqSample "B").is_correct = true
    ∧ (grade_answer constNoneVectorizer mcqSample "A").is_correct = false
    ∧ (grade_answer constNoneVectorizer mcqSample "A").score = 0 := by
  refine ⟨Or.inl rfl, ?_, ?_, ?_, ?_, ?_, ?_⟩
  · exact (mcq_exact_match constNoneVectorizer mcqSample "b"
      (Or.inl rfl)).1.trans (by decide)
  · exact (mcq_exact_match constNoneVectorizer mcqSample "b"
      (Or.inl rfl)).2.1.trans (by with_unfolding_all rfl)
  · exact (mcq_exact_match constNoneVectorizer mcqSample " B "
      (Or.inl rfl)).1.trans (by decide)
  · exact (mcq_exact_match constNoneVectorizer mcqSample "B"
      (Or.inl rfl)).1.trans (by decide)
  · exact (mcq_exact_match constNoneVectorizer mcqSample "A"
      (Or.inl rfl)).1.trans (by decide)
  · exact (mcq_exact_match constNoneVectorizer mcqSample "A"
      (Or.inl rfl)).2.1.trans (by with_unfolding_all rfl)

/-- C8: the factory returns the mock engine for `"mock"`, for the default
argument, and for every unrecognized string; for `"llm"` it returns a
constructed `LLMGradingService` (construction always succeeds) whose
`grade_answer` raises its `NotImplementedError` on every input. -/
theorem factory_and_llm_spec :
    get_grading_service "mock" = GradingService.mock
    ∧ get_grading_service default_service_type = GradingService.mock
    ∧ (∀ s : String, s ≠ "mock" → s ≠ "llm" →
        get_grading_service s = GradingService.mock)
    ∧ get_grading_service "llm"
        = GradingService.llm { api_key := none, model := "gpt-4" }
    ∧ (∀ (g : LLMGradingService) (q : Question) (a : String),
        g.grade_answer q a = Except.error
          (GradingError.notImplementedError
            "LLM grading service not implemented")) := by
  refine ⟨rfl, rfl, ?_, rfl, fun _ _ _ => rfl⟩
  intro s h1 h2
  unfold get_grading_service
  rw [if_neg h1, if_neg h2]

/-- C8 witness: the silent fallback at a concrete unrecognized string, and
the LLM failure at a concrete call. -/
theorem factory_and_llm_spec_witness :
    "banana" ≠ "mock" ∧ "banana" ≠ "llm"
    ∧ get_grading_service "banana" = GradingService.mock
    ∧ LLMGradingService.grade_answer { api_key := none, model := "gpt-4" }
        mcqSample "b"
        = Except.error (GradingError.notImplementedError
            "LLM grading service not implemented") :=
  ⟨by decide, by decide,
    factory_and_llm_spec.2.2.1 "banana" (by decide) (by decide),
    factory_and_llm_spec.2.2.2.2 { api_key := none, model := "gpt-4" }
      mcqSample "b"⟩

/-- C9: grading is deterministic and history-independent: one call on an
instance equals `grade_answer` of its vectorizer, the result after any list
of prior calls equals the result on a fresh instance, and repeating the same
call gives the identical `GradingResult` (all fields, by structure
equality). -/
theorem grading_deterministic (v : Vectorizer) (q : Question) (a : String)
    (prior : List (Question × String)) :
    (stepCall ⟨v⟩ q a).1 = grade_answer v q a
    ∧ (stepCall (runCalls ⟨v⟩ prior) q a).1 = (stepCall ⟨v⟩ q a).1
    ∧ (stepCall (stepCall ⟨v⟩ q a).2 q a).1 = (stepCall ⟨v⟩ q a).1 := by
  have hrun : ∀ (l : List (Question × String)) (s : MockServiceState),
      runCalls s l = s := by
    intro l
    induction l with
    | nil => intro s; rfl
    | cons c cs ih => intro s; exact ih s
  exact ⟨rfl, by rw [hrun], rfl⟩

/-- C10: an empty string in the configured keyword list is a substring of
every answer, so the configured list `[""]` yields keyword score `1` for
every answer, including the empty one. -/
theorem empty_keyword_matches_everything (q : Question) (a : String)
    (h : q.keywords_criteria = [""]) :
    (∀ hay : String, strContains hay "" = true)
    ∧ calculate_keyword_score q a = 1 := by
  refine ⟨fun hay => containsList_nil_left hay.toList, ?_⟩
  have hmatch : strContains (lowerStr a) (lowerStr "") = true :=
    containsList_nil_left _
  simp [calculate_keyword_score, h, List.countP_cons, hmatch]

/-- C10 witness: the configured list `[""]` scores `1` even for the empty
answer. -/
theorem empty_keyword_matches_everything_witness :
    emptyKeywordSample.keywords_criteria = [""]
    ∧ calculate_keyword_score emptyKeywordSample "" = 1 :=
  ⟨rfl, (empty_keyword_matches_everything emptyKeywordSample "" rfl).2⟩
